import Mathlib

/-!
Shallow embedding of the AI task analyzer of `backend/ai_service/analyzer.py`
(Smart-To-Do). Scores, timestamps and day offsets are modelled as rationals
(`ℚ`); Python strings are Lean `String`s; Python's substring operator `in`
is `containsSub`; a Python `dict` result parsed from the LLM reply is the
typed record `ResultData` with `Option` fields (a `none` field is an absent
key, the default of `dict.get` applying); Python exceptions are the `error`
case of `Except PyErr`.
-/

namespace SmartTodo

/-- Python's builtin `min` on two rationals (returns the first on ties). -/
def pymin (a b : ℚ) : ℚ := if a ≤ b then a else b

/-- Python's builtin `max` on two rationals (returns the first on ties). -/
def pymax (a b : ℚ) : ℚ := if a ≥ b then a else b

/-- Substring test on lists of characters: `needle` occurs contiguously in
`haystack`. Embeds Python's `needle in haystack` for strings. -/
def listContains (needle : List Char) : List Char → Bool
  | [] => needle.isEmpty
  | c :: rest => needle.isPrefixOf (c :: rest) || listContains needle rest

/-- String form of `listContains`: Python's `needle in haystack`. -/
def containsSub (haystack needle : String) : Bool :=
  listContains needle.toList haystack.toList

/-- Python's `str.lower()`, character by character (the analyzer only feeds
it ASCII text). -/
def strToLower (s : String) : String :=
  String.mk (s.toList.map Char.toLower)

/-- Context entry as consumed by the analyzer: a `source_type` tag and the
text `content` (the timestamp is never read by the heuristics). -/
structure ContextEntry where
  source_type : String
  content : String
deriving DecidableEq, Repr

/-- Task input: `task_json.get('title','')`, `.get('description','')`,
`.get('priority','medium')` of the source, as a typed record. -/
structure TaskInput where
  title : String
  description : String
  priority : String
deriving DecidableEq, Repr

/-- Workload snapshot: `current_load.get('active_tasks', 0)`. A Python falsy
or missing `current_load` is `Option.none` at use sites. -/
structure Workload where
  active_tasks : ℕ
deriving DecidableEq, Repr

/-- Result record `AIAnalysisResult` of the source. The suggested deadline is
a timestamp modelled as a rational number of days. -/
structure AIAnalysisResult where
  priority_score : ℚ
  suggested_deadline : Option ℚ
  enhanced_description : String
  suggested_categories : List String
  confidence_score : ℚ
  reasoning : String
deriving DecidableEq, Repr

/-- Base score table of `_calculate_priority_score`:
`{'low': 25.0, 'medium': 50.0, 'high': 75.0, 'urgent': 90.0}.get(p, 50.0)`. -/
def priorityBase (current_priority : String) : ℚ :=
  if current_priority = "low" then 25
  else if current_priority = "medium" then 50
  else if current_priority = "high" then 75
  else if current_priority = "urgent" then 90
  else 50

/-- Urgency keyword table of `_calculate_priority_score` (boosts). -/
def urgency_keywords : List (String × ℚ) :=
  [("urgent", 20), ("asap", 15), ("immediately", 15), ("critical", 20),
   ("emergency", 25), ("deadline", 10), ("due", 8), ("important", 5),
   ("priority", 5), ("meeting", 8), ("call", 6), ("email", 3)]

/-- Calming keyword table of `_calculate_priority_score` (reductions). -/
def calming_keywords : List (String × ℚ) :=
  [("someday", -15), ("maybe", -10), ("later", -8), ("whenever", -12),
   ("eventually", -10), ("optional", -15), ("nice to have", -10)]

/-- Sum of the weights of the table keywords occurring in `text`: the two
`for keyword, boost in ...` loops of `_calculate_priority_score`. -/
def keywordAdjust (table : List (String × ℚ)) (text : String) : ℚ :=
  (table.map (fun kb => if containsSub text kb.1 then kb.2 else 0)).sum

/-- Context-entry test of `_calculate_priority_score`: the entry's
`source_type` is `whatsapp` or `email` (the spec's message-app/email) and its
lower-cased content contains one of urgent/asap/need/help. -/
def contextQualifies (e : ContextEntry) : Bool :=
  (e.source_type = "whatsapp" || e.source_type = "email") &&
    (["urgent", "asap", "need", "help"].any fun w => containsSub (strToLower e.content) w)

/-- Context-based adjustment loop of `_calculate_priority_score`: +10 for
each qualifying entry. -/
def contextBonus (context_entries : List ContextEntry) : ℚ :=
  (context_entries.map (fun e => if contextQualifies e then (10 : ℚ) else 0)).sum

/-- Embeds `_calculate_priority_score(title, description, current_priority,
context_entries)`; `title` and `description` arrive already lower-cased from
`_fallback_analysis`. -/
def calculate_priority_score (title description current_priority : String)
    (context_entries : List ContextEntry) : ℚ :=
  let text := title ++ " " ++ description
  let score_adjustment :=
    keywordAdjust urgency_keywords text + keywordAdjust calming_keywords text +
      contextBonus context_entries
  let final_score := priorityBase current_priority + score_adjustment
  pymin 100 (pymax 0 final_score)

/-- Time-pattern table of `_suggest_deadline`. Each regex is an alternation
of literals, modelled as the list of its alternatives; the value is the day
offset passed to `timedelta`. -/
def time_patterns : List (List String × ℚ) :=
  [(["today", "asap", "immediately"], 0.25),
   (["tomorrow", "by tomorrow"], 1),
   (["this week", "end of week"], 7),
   (["next week"], 14),
   (["month", "monthly"], 30)]

/-- First-match lookup over `time_patterns`: `re.search(pattern, text,
re.IGNORECASE)` is a case-folded substring test for these literal
alternations, and the loop returns at the first hit. -/
def findTimePattern (text : String) : List (List String × ℚ) → Option ℚ
  | [] => none
  | (pats, days) :: rest =>
      if pats.any (fun p => containsSub (strToLower text) p) then some days
      else findTimePattern text rest

/-- Embeds `_suggest_deadline(title, description, priority_score,
current_load)` with the wall clock `now` passed explicitly. -/
def suggest_deadline (title description : String) (priority_score : ℚ)
    (current_load : Option Workload) (now : ℚ) : Option ℚ :=
  let text := title ++ " " ++ description
  match findTimePattern text time_patterns with
  | some days => some (now + days)
  | none =>
    let days_ahead : ℚ :=
      if priority_score ≥ 80 then 1
      else if priority_score ≥ 60 then 3
      else if priority_score ≥ 40 then 7
      else 14
    let days_ahead :=
      match current_load with
      | some load => if load.active_tasks > 10 then days_ahead * 1.5 else days_ahead
      | none => days_ahead
    some (now + days_ahead)

/-- Source-type filter of `_enhance_description`:
`entry.get('source_type') in ['email', 'whatsapp']`. -/
def enhanceQualifies (e : ContextEntry) : Bool :=
  e.source_type = "email" || e.source_type = "whatsapp"

/-- Rendering of one context entry in `_enhance_description`:
`f"Context from {entry['source_type']}: {content}..."` with `content`
truncated to its first 100 characters. -/
def renderContextLine (e : ContextEntry) : String :=
  "Context from " ++ e.source_type ++ ": " ++ String.mk (e.content.toList.take 100) ++ "..."

/-- Embeds `_enhance_description(task_json, context_entries)`: empty
description returns empty; otherwise the first 2 context entries are kept
(`context_entries[:2]`), those with a qualifying source are rendered, and a
non-empty block is appended to the description. -/
def enhance_description (task_json : TaskInput) (context_entries : List ContextEntry) :
    String :=
  let original_desc := task_json.description
  if original_desc = "" then ""
  else
    let relevant_context :=
      ((context_entries.take 2).filter enhanceQualifies).map renderContextLine
    if relevant_context = [] then original_desc
    else original_desc ++ "\n\nAdditional context:\n" ++
      String.intercalate "\n" relevant_context

/-- Category keyword table of `_suggest_categories`, in source order. -/
def category_keywords : List (String × List String) :=
  [("work", ["meeting", "project", "deadline", "client", "business", "office",
             "presentation"]),
   ("health", ["doctor", "appointment", "exercise", "gym", "medicine", "health",
               "workout"]),
   ("finance", ["payment", "bill", "money", "bank", "budget", "expense", "invoice"]),
   ("personal", ["family", "friend", "home", "personal", "hobby", "vacation",
                 "birthday"]),
   ("learning", ["study", "course", "learn", "read", "book", "training",
                 "education"]),
   ("shopping", ["buy", "purchase", "shop", "order", "grocery", "store"]),
   ("maintenance", ["repair", "fix", "clean", "maintenance", "service", "update"])]

/-- Embeds `_suggest_categories(title, description)`: a category is suggested
when any of its keywords occurs in the lower-cased blob; the suggestion list
is truncated to the first 3 (`suggestions[:3]`). -/
def suggest_categories (title description : String) : List String :=
  let text := strToLower (title ++ " " ++ description)
  (((category_keywords.filter fun ck =>
      ck.2.any fun keyword => containsSub text keyword).map Prod.fst).take 3)

/-- Embeds `_fallback_analysis(task_json, context_entries, user_prefs,
current_load)`. `user_prefs` is accepted and, as in the source, never read;
it is modelled as an opaque association list. -/
def fallback_analysis (task_json : TaskInput) (context_entries : List ContextEntry)
    (user_prefs : List (String × String)) (current_load : Option Workload)
    (now : ℚ) : AIAnalysisResult :=
  let title := strToLower task_json.title
  let description := strToLower task_json.description
  let current_priority := task_json.priority
  let priority_score := calculate_priority_score title description current_priority
    context_entries
  let suggested_deadline := suggest_deadline title description priority_score
    current_load now
  let enhanced_description := enhance_description task_json context_entries
  let suggested_categories := suggest_categories title description
  { priority_score := priority_score
    suggested_deadline := suggested_deadline
    enhanced_description := enhanced_description
    suggested_categories := suggested_categories
    confidence_score := 0.6
    reasoning := "Analysis performed using rule-based heuristics (AI unavailable)" }

/-- Python exceptions that the analyzer's LLM path can raise. -/
inductive PyErr where
  /-- `ValueError`/`TypeError` from `float(...)` on a value it cannot convert. -/
  | valueOrTypeError
  /-- `AttributeError` from `.lower()` on a truthy non-string deadline value. -/
  | attributeError
  /-- An exception escaping `_get_ai_response` (provider/network failure). -/
  | providerError
deriving DecidableEq, Repr

/-- JSON value as seen by `float(...)`: `num q` stands for any value Python's
`float` converts (ints, floats, booleans, numeric strings), `nonNumeric` for
any value on which `float` raises `ValueError`/`TypeError` (e.g. the string
"abc", `null`, a list). -/
inductive PyVal where
  | num (q : ℚ)
  | nonNumeric
deriving DecidableEq, Repr

/-- Embeds `float(v)` on a JSON value. -/
def pyFloat : PyVal → Except PyErr ℚ
  | .num q => .ok q
  | .nonNumeric => .error .valueOrTypeError

/-- Embeds `float(result_data.get(key, default))`: the default applies only
when the key is absent; a present value goes through `float`. -/
def getFloat (field : Option PyVal) (default : ℚ) : Except PyErr ℚ :=
  match field with
  | none => .ok default
  | some v => pyFloat v

/-- Value of the `suggested_deadline` key as classified by
`_create_analysis_result`: a string, a falsy non-string (`None`, `0`,
`False` — the `if deadline_str` guard skips it), or a truthy non-string
(`.lower()` raises `AttributeError` on it). -/
inductive DeadlineVal where
  | str (s : String)
  | falsyNonStr
  | truthyNonStr
deriving DecidableEq, Repr

/-- Deadline-parsing block of `_create_analysis_result`. `fromisoformat`
abstracts `datetime.fromisoformat` composed with the `'Z'` replacement and
timezone normalisation: it returns the parsed timestamp, or `none` when the
stdlib parser raises `ValueError`/`TypeError` (caught and logged). -/
def parseDeadlineField (fromisoformat : String → Option ℚ) :
    Option DeadlineVal → Except PyErr (Option ℚ)
  | none => .ok none
  | some .falsyNonStr => .ok none
  | some .truthyNonStr => .error .attributeError
  | some (.str s) =>
      if s = "" then .ok none
      else if strToLower s = "null" then .ok none
      else .ok (fromisoformat s)

/-- Parsed LLM reply (`result_data` in `_create_analysis_result`) as a typed
record: a `none` field is an absent key. -/
structure ResultData where
  priority_score : Option PyVal
  suggested_deadline : Option DeadlineVal
  enhanced_description : Option String
  suggested_categories : Option (List String)
  confidence_score : Option PyVal
  reasoning : Option String
deriving DecidableEq, Repr

/-- Embeds `_create_analysis_result(result_data)`: parse the deadline, then
build the record, clamping both scores; `float(...)` failures and the
`.lower()` failure propagate as exceptions. Evaluation order follows the
source (deadline block first, then the constructor arguments left to
right). -/
def create_analysis_result (fromisoformat : String → Option ℚ)
    (result_data : ResultData) : Except PyErr AIAnalysisResult :=
  match parseDeadlineField fromisoformat result_data.suggested_deadline with
  | .error e => .error e
  | .ok suggested_deadline =>
    match getFloat result_data.priority_score 50.0 with
    | .error e => .error e
    | .ok ps =>
      match getFloat result_data.confidence_score 0.5 with
      | .error e => .error e
      | .ok cs =>
          .ok
            { priority_score := pymin 100.0 (pymax 0.0 ps)
              suggested_deadline := suggested_deadline
              enhanced_description := result_data.enhanced_description.getD ""
              suggested_categories := result_data.suggested_categories.getD []
              confidence_score := pymin 1.0 (pymax 0.0 cs)
              reasoning := result_data.reasoning.getD "" }

/-- Outcome of prompting the configured provider and `json.loads`-ing the
reply, abstracting `_get_ai_response` plus `json.loads`: the provider call
raised, or the reply was not valid JSON, or it parsed to `result_data`. -/
inductive LLMOutcome where
  | providerError
  | malformedJSON
  | parsed (result_data : ResultData)
deriving Repr

/-- Embeds `_ai_analysis`: a provider exception propagates; a
`json.JSONDecodeError` is caught and answered with the fallback; a parsed
reply goes through `_create_analysis_result` (whose exceptions
propagate). -/
def ai_analysis (fromisoformat : String → Option ℚ) (outcome : LLMOutcome)
    (task_json : TaskInput) (context_entries : List ContextEntry)
    (user_prefs : List (String × String)) (current_load : Option Workload)
    (now : ℚ) : Except PyErr AIAnalysisResult :=
  match outcome with
  | .providerError => .error .providerError
  | .malformedJSON =>
      .ok (fallback_analysis task_json context_entries user_prefs current_load now)
  | .parsed result_data => create_analysis_result fromisoformat result_data

/-- Engine mode after `setup_ai_client`: `fallback`, or one of the three
provider modes (their differences live below this model's abstraction). -/
inductive Mode where
  | fallback
  | ai
deriving DecidableEq, Repr

/-- Body of the `try:` block of `analyze_task` — the computation the
top-level `except Exception` guards. -/
def analyze_task_body (fromisoformat : String → Option ℚ) (mode : Mode)
    (outcome : LLMOutcome) (task_json : TaskInput)
    (context_entries : List ContextEntry) (user_prefs : List (String × String))
    (current_load : Option Workload) (now : ℚ) : Except PyErr AIAnalysisResult :=
  match mode with
  | .fallback =>
      .ok (fallback_analysis task_json context_entries user_prefs current_load now)
  | .ai =>
      ai_analysis fromisoformat outcome task_json context_entries user_prefs
        current_load now

/-- Embeds `analyze_task`: the body's exceptions are caught by
`except Exception` and answered with the rule-based fallback. -/
def analyze_task (fromisoformat : String → Option ℚ) (mode : Mode)
    (outcome : LLMOutcome) (task_json : TaskInput)
    (context_entries : List ContextEntry) (user_prefs : List (String × String))
    (current_load : Option Workload) (now : ℚ) : AIAnalysisResult :=
  match analyze_task_body fromisoformat mode outcome task_json context_entries
      user_prefs current_load now with
  | .ok r => r
  | .error _ =>
      fallback_analysis task_json context_entries user_prefs current_load now

/-! Helper lemmas shared by the claim theorems. -/

/-- Clamping with `pymin`/`pymax` lands in the target interval. -/
theorem pyclamp_mem (lo hi x : ℚ) (h : lo ≤ hi) :
    lo ≤ pymin hi (pymax lo x) ∧ pymin hi (pymax lo x) ≤ hi := by
  unfold pymin pymax
  split_ifs <;> constructor <;> linarith

/-- Clamping with `pymin`/`pymax` is monotone. -/
theorem pyclamp_mono (lo hi x y : ℚ) (hxy : x ≤ y) :
    pymin hi (pymax lo x) ≤ pymin hi (pymax lo y) := by
  unfold pymin pymax
  split_ifs <;> linarith

/-- The rule-based priority score lies in [0, 100]. -/
theorem calculate_priority_score_mem (t d p : String) (c : List ContextEntry) :
    0 ≤ calculate_priority_score t d p c ∧ calculate_priority_score t d p c ≤ 100 := by
  simp only [calculate_priority_score]
  exact pyclamp_mem 0 100 _ (by norm_num)

/-- Field shape of a successful run of the validator: both scores are
clamped values and the category list is passed through (defaulting to
`[]` when the key is absent). -/
theorem create_ok_fields (f : String → Option ℚ) (rd : ResultData)
    (r : AIAnalysisResult) (h : create_analysis_result f rd = .ok r) :
    (∃ ps, r.priority_score = pymin 100.0 (pymax 0.0 ps)) ∧
    (∃ cs, r.confidence_score = pymin 1.0 (pymax 0.0 cs)) ∧
    r.suggested_categories = rd.suggested_categories.getD [] := by
  unfold create_analysis_result at h
  rcases hd : parseDeadlineField f rd.suggested_deadline with e | dl <;> rw [hd] at h
  · exact absurd h (by simp)
  rcases hp : getFloat rd.priority_score 50.0 with e | ps <;> rw [hp] at h
  · exact absurd h (by simp)
  rcases hc : getFloat rd.confidence_score 0.5 with e | cs <;> rw [hc] at h
  · exact absurd h (by simp)
  simp only [Except.ok.injEq] at h
  subst h
  exact ⟨⟨ps, rfl⟩, ⟨cs, rfl⟩, rfl⟩

/-- A successful `analyze_task` body comes either from the rule-based
fallback or from a successful validator run on a parsed LLM reply. -/
theorem body_ok_cases (f : String → Option ℚ) (mode : Mode) (outcome : LLMOutcome)
    (task : TaskInput) (ctx : List ContextEntry) (prefs : List (String × String))
    (load : Option Workload) (now : ℚ) (r : AIAnalysisResult)
    (h : analyze_task_body f mode outcome task ctx prefs load now = .ok r) :
    r = fallback_analysis task ctx prefs load now ∨
    ∃ rd, outcome = .parsed rd ∧ create_analysis_result f rd = .ok r := by
  cases mode with
  | fallback =>
      left
      simpa [analyze_task_body] using h.symm
  | ai =>
      cases outcome with
      | providerError => exact absurd h (by simp [analyze_task_body, ai_analysis])
      | malformedJSON =>
          left
          simpa [analyze_task_body, ai_analysis] using h.symm
      | parsed rd =>
          right
          exact ⟨rd, rfl, by simpa [analyze_task_body, ai_analysis] using h⟩

/-- C1: for every input and on both the LLM-validated path and the
rule-based fallback path, the returned result satisfies
`0 ≤ priority_score ≤ 100` and `0 ≤ confidence_score ≤ 1`. -/
theorem analyze_task_scores_clamped (f : String → Option ℚ) (mode : Mode)
    (outcome : LLMOutcome) (task : TaskInput) (ctx : List ContextEntry)
    (prefs : List (String × String)) (load : Option Workload) (now : ℚ) :
    0 ≤ (analyze_task f mode outcome task ctx prefs load now).priority_score ∧
    (analyze_task f mode outcome task ctx prefs load now).priority_score ≤ 100 ∧
    0 ≤ (analyze_task f mode outcome task ctx prefs load now).confidence_score ∧
    (analyze_task f mode outcome task ctx prefs load now).confidence_score ≤ 1 := by
  have hfb : ∀ t c p l n,
      0 ≤ (fallback_analysis t c p l n).priority_score ∧
      (fallback_analysis t c p l n).priority_score ≤ 100 ∧
      0 ≤ (fallback_analysis t c p l n).confidence_score ∧
      (fallback_analysis t c p l n).confidence_score ≤ 1 := by
    intro t c p l n
    refine ⟨(calculate_priority_score_mem _ _ _ _).1,
      (calculate_priority_score_mem _ _ _ _).2, ?_, ?_⟩ <;>
      simp only [fallback_analysis] <;> norm_num
  unfold analyze_task
  rcases hb : analyze_task_body f mode outcome task ctx prefs load now with e | r
  · exact hfb _ _ _ _ _
  rcases body_ok_cases f mode outcome task ctx prefs load now r hb with hr | ⟨rd, _, hok⟩
  · rw [hr]; exact hfb _ _ _ _ _
  obtain ⟨⟨ps, hps⟩, ⟨cs, hcs⟩, -⟩ := create_ok_fields f rd r hok
  rw [hps, hcs]
  have h1 := pyclamp_mem 0.0 100.0 ps (by norm_num)
  have h2 := pyclamp_mem 0.0 1.0 cs (by norm_num)
  norm_num at h1 h2 ⊢
  exact ⟨h1.1, h1.2, h2.1, h2.2⟩

/-- C10: the rule-based fallback always reports confidence 0.6 and the
fixed reasoning string, independent of every input. -/
theorem fallback_confidence_and_reasoning (task : TaskInput)
    (ctx : List ContextEntry) (prefs : List (String × String))
    (load : Option Workload) (now : ℚ) :
    (fallback_analysis task ctx prefs load now).confidence_score = 0.6 ∧
    (fallback_analysis task ctx prefs load now).reasoning =
      "Analysis performed using rule-based heuristics (AI unavailable)" :=
  ⟨rfl, rfl⟩

/-- C5: the concrete urgent-server task at priority "high" scores exactly
100 on the rule-based path (base 75 plus keyword boosts, clamped to 100). -/
theorem scenario_urgent_server_scores_100 :
    (fallback_analysis
        ⟨"URGENT: Fix server issue", "Critical server down, needs immediate attention",
          "high"⟩ [] [] none 0).priority_score = 100 := by
  simp +decide [fallback_analysis, calculate_priority_score, keywordAdjust,
    urgency_keywords, calming_keywords, contextBonus, priorityBase, pymin, pymax,
    strToLower]
  norm_num

/-- C3: `analyze_task` never surfaces an LLM-path failure: a reply that is
not valid JSON is answered with the rule-based fallback, and any exception
escaping the body (provider error, `float` failure on a malformed field,
`.lower()` failure on the deadline value) is caught and answered with the
rule-based fallback as well. -/
theorem analyze_task_catches_ai_failures (f : String → Option ℚ)
    (outcome : LLMOutcome) (task : TaskInput) (ctx : List ContextEntry)
    (prefs : List (String × String)) (load : Option Workload) (now : ℚ) :
    (∀ e, ai_analysis f outcome task ctx prefs load now = .error e →
      analyze_task f .ai outcome task ctx prefs load now =
        fallback_analysis task ctx prefs load now) ∧
    analyze_task f .ai .malformedJSON task ctx prefs load now =
      fallback_analysis task ctx prefs load now := by
  constructor
  · intro e he
    unfold analyze_task analyze_task_body
    rw [he]
  · rfl

/-- Witness for C3 at a provider failure on a concrete task. -/
theorem analyze_task_catches_ai_failures_witness :
    analyze_task (fun _ => none) .ai .providerError ⟨"write report", "", "medium"⟩
        [] [] none 0 =
      fallback_analysis ⟨"write report", "", "medium"⟩ [] [] none 0 :=
  (analyze_task_catches_ai_failures (fun _ => none) .providerError
    ⟨"write report", "", "medium"⟩ [] [] none 0).1 .providerError rfl

/-- C2 counterexample: on the LLM-validated path the category list is not
truncated — a parsed reply carrying four categories is returned with all
four, so `suggested_categories` can exceed length 3. -/
theorem llm_categories_exceed_three_counterexample :
    (analyze_task (fun _ => none) .ai
        (.parsed ⟨none, none, none, some ["a", "b", "c", "d"], none, none⟩)
        ⟨"t", "d", "medium"⟩ [] [] none 0).suggested_categories = ["a", "b", "c", "d"] ∧
    ¬ (analyze_task (fun _ => none) .ai
        (.parsed ⟨none, none, none, some ["a", "b", "c", "d"], none, none⟩)
        ⟨"t", "d", "medium"⟩ [] [] none 0).suggested_categories.length ≤ 3 := by
  constructor
  · rfl
  · intro h
    simp [analyze_task, analyze_task_body, ai_analysis, create_analysis_result,
      parseDeadlineField, getFloat] at h

/-- C2 amended: the rule-based path returns at most 3 suggested categories,
while the LLM-validated path passes the reply's category list through
unchanged (defaulting to `[]` when absent), without truncation. -/
theorem suggested_categories_bounded_only_on_fallback (task : TaskInput)
    (ctx : List ContextEntry) (prefs : List (String × String))
    (load : Option Workload) (now : ℚ) (f : String → Option ℚ) (rd : ResultData)
    (r : AIAnalysisResult) :
    (fallback_analysis task ctx prefs load now).suggested_categories.length ≤ 3 ∧
    (create_analysis_result f rd = .ok r →
      r.suggested_categories = rd.suggested_categories.getD []) := by
  constructor
  · simp only [fallback_analysis, suggest_categories]
    simpa using List.length_take_le 3 _
  · intro h
    exact (create_ok_fields f rd r h).2.2

/-- Witness for C2's amended claim on a concrete task and a concrete parsed
reply carrying one category. -/
theorem suggested_categories_bounded_only_on_fallback_witness :
    (fallback_analysis ⟨"t", "d", "medium"⟩ [] [] none 0).suggested_categories.length ≤ 3 ∧
    ({ priority_score := pymin 100.0 (pymax 0.0 50.0), suggested_deadline := none,
       enhanced_description := "", suggested_categories := ["x"],
       confidence_score := pymin 1.0 (pymax 0.0 0.5), reasoning := "" } :
      AIAnalysisResult).suggested_categories =
      (ResultData.suggested_categories ⟨none, none, none, some ["x"], none, none⟩).getD [] :=
  ⟨(suggested_categories_bounded_only_on_fallback ⟨"t", "d", "medium"⟩ [] [] none 0
      (fun _ => none) ⟨none, none, none, some ["x"], none, none⟩
      { priority_score := pymin 100.0 (pymax 0.0 50.0), suggested_deadline := none,
        enhanced_description := "", suggested_categories := ["x"],
        confidence_score := pymin 1.0 (pymax 0.0 0.5), reasoning := "" }).1,
   (suggested_categories_bounded_only_on_fallback ⟨"t", "d", "medium"⟩ [] [] none 0
      (fun _ => none) ⟨none, none, none, some ["x"], none, none⟩
      { priority_score := pymin 100.0 (pymax 0.0 50.0), suggested_deadline := none,
        enhanced_description := "", suggested_categories := ["x"],
        confidence_score := pymin 1.0 (pymax 0.0 0.5), reasoning := "" }).2 rfl⟩

/-- C4 counterexample: a present but non-numeric `priority_score` is not
defaulted to 50.0 — `float(...)` raises and the validator run fails
(`ValueError`/`TypeError` escapes `_create_analysis_result`). -/
theorem validator_raises_on_present_nonnumeric_counterexample :
    create_analysis_result (fun _ => none)
        ⟨some .nonNumeric, none, none, none, none, none⟩ =
      .error .valueOrTypeError := rfl

/-- A successful validator run decomposes into a successful deadline parse
and two successful `float` reads whose clamps give the result's scores. -/
theorem create_ok_scores (f : String → Option ℚ) (rd : ResultData)
    (r : AIAnalysisResult) (h : create_analysis_result f rd = .ok r) :
    ∃ ps cs, getFloat rd.priority_score 50.0 = .ok ps ∧
      getFloat rd.confidence_score 0.5 = .ok cs ∧
      r.priority_score = pymin 100.0 (pymax 0.0 ps) ∧
      r.confidence_score = pymin 1.0 (pymax 0.0 cs) := by
  unfold create_analysis_result at h
  rcases hd : parseDeadlineField f rd.suggested_deadline with e | dl <;> rw [hd] at h
  · exact absurd h (by simp)
  rcases hp : getFloat rd.priority_score 50.0 with e | ps <;> rw [hp] at h
  · exact absurd h (by simp)
  rcases hc : getFloat rd.confidence_score 0.5 with e | cs <;> rw [hc] at h
  · exact absurd h (by simp)
  simp only [Except.ok.injEq] at h
  subst h
  exact ⟨ps, cs, rfl, rfl, rfl, rfl⟩

/-- C4 amended: for each of the two score fields independently, the default
(50.0 for priority, 0.5 for confidence) applies only when that key is
absent, and the read value is then clamped to [0,100] resp. [0,1]; a present
numeric value is clamped to the same range; a present value that `float`
cannot convert makes the validator raise (the exception is caught upstream
in `analyze_task`, not here). -/
theorem validator_defaults_only_when_absent (f : String → Option ℚ)
    (rd : ResultData) (q : ℚ) :
    (rd.priority_score = none →
      ∀ r, create_analysis_result f rd = .ok r → r.priority_score = 50) ∧
    (rd.confidence_score = none →
      ∀ r, create_analysis_result f rd = .ok r → r.confidence_score = 0.5) ∧
    (rd.priority_score = some (.num q) →
      ∀ r, create_analysis_result f rd = .ok r →
        r.priority_score = pymin 100.0 (pymax 0.0 q) ∧
        0 ≤ r.priority_score ∧ r.priority_score ≤ 100) ∧
    (rd.confidence_score = some (.num q) →
      ∀ r, create_analysis_result f rd = .ok r →
        r.confidence_score = pymin 1.0 (pymax 0.0 q) ∧
        0 ≤ r.confidence_score ∧ r.confidence_score ≤ 1) ∧
    (rd.priority_score = some .nonNumeric →
      ∃ e, create_analysis_result f rd = .error e) ∧
    (rd.confidence_score = some .nonNumeric →
      ∃ e, create_analysis_result f rd = .error e) := by
  refine ⟨?_, ?_, ?_, ?_, ?_, ?_⟩
  · intro hp r h
    obtain ⟨ps, cs, hps, hcs, hrp, hrc⟩ := create_ok_scores f rd r h
    rw [hp] at hps
    simp only [getFloat, Except.ok.injEq] at hps
    subst hps
    rw [hrp]
    norm_num [pymin, pymax]
  · intro hc r h
    obtain ⟨ps, cs, hps, hcs, hrp, hrc⟩ := create_ok_scores f rd r h
    rw [hc] at hcs
    simp only [getFloat, Except.ok.injEq] at hcs
    subst hcs
    rw [hrc]
    norm_num [pymin, pymax]
  · intro hp r h
    obtain ⟨ps, cs, hps, hcs, hrp, hrc⟩ := create_ok_scores f rd r h
    rw [hp] at hps
    simp only [getFloat, pyFloat, Except.ok.injEq] at hps
    subst hps
    refine ⟨hrp, ?_⟩
    rw [hrp]
    have hb := pyclamp_mem 0 100 q (by norm_num)
    norm_num at hb ⊢
    exact hb
  · intro hc r h
    obtain ⟨ps, cs, hps, hcs, hrp, hrc⟩ := create_ok_scores f rd r h
    rw [hc] at hcs
    simp only [getFloat, pyFloat, Except.ok.injEq] at hcs
    subst hcs
    refine ⟨hrc, ?_⟩
    rw [hrc]
    have hb := pyclamp_mem 0 1 q (by norm_num)
    norm_num at hb ⊢
    exact hb
  · intro hp
    unfold create_analysis_result
    rcases hd : parseDeadlineField f rd.suggested_deadline with e | dl
    · exact ⟨e, rfl⟩
    · rw [hp]
      exact ⟨.valueOrTypeError, rfl⟩
  · intro hc
    unfold create_analysis_result
    rcases hd : parseDeadlineField f rd.suggested_deadline with e | dl
    · exact ⟨e, rfl⟩
    rcases hp : getFloat rd.priority_score 50.0 with e | ps
    · exact ⟨e, rfl⟩
    · rw [hc]
      exact ⟨.valueOrTypeError, rfl⟩

/-- Witness for C4's amended claim: absent keys yield the defaults 50 and
0.5; present numeric 120.0 and 2.0 are clamped into [0,100] and [0,1]; a
present non-numeric value in either field makes the validator fail. -/
theorem validator_defaults_only_when_absent_witness :
    ((⟨pymin 100.0 (pymax 0.0 50.0), none, "", [], pymin 1.0 (pymax 0.0 0.5), ""⟩ :
        AIAnalysisResult).priority_score = 50 ∧
      (⟨pymin 100.0 (pymax 0.0 50.0), none, "", [], pymin 1.0 (pymax 0.0 0.5), ""⟩ :
        AIAnalysisResult).confidence_score = 0.5) ∧
    ((⟨pymin 100.0 (pymax 0.0 120.0), none, "", [], pymin 1.0 (pymax 0.0 2.0), ""⟩ :
        AIAnalysisResult).priority_score = pymin 100.0 (pymax 0.0 120.0) ∧
      0 ≤ (⟨pymin 100.0 (pymax 0.0 120.0), none, "", [], pymin 1.0 (pymax 0.0 2.0), ""⟩ :
        AIAnalysisResult).priority_score ∧
      (⟨pymin 100.0 (pymax 0.0 120.0), none, "", [], pymin 1.0 (pymax 0.0 2.0), ""⟩ :
        AIAnalysisResult).priority_score ≤ 100) ∧
    ((⟨pymin 100.0 (pymax 0.0 120.0), none, "", [], pymin 1.0 (pymax 0.0 2.0), ""⟩ :
        AIAnalysisResult).confidence_score = pymin 1.0 (pymax 0.0 2.0) ∧
      0 ≤ (⟨pymin 100.0 (pymax 0.0 120.0), none, "", [], pymin 1.0 (pymax 0.0 2.0), ""⟩ :
        AIAnalysisResult).confidence_score ∧
      (⟨pymin 100.0 (pymax 0.0 120.0), none, "", [], pymin 1.0 (pymax 0.0 2.0), ""⟩ :
        AIAnalysisResult).confidence_score ≤ 1) ∧
    (∃ e, create_analysis_result (fun _ => none)
        ⟨some .nonNumeric, none, none, none, none, none⟩ = .error e) ∧
    (∃ e, create_analysis_result (fun _ => none)
        ⟨none, none, none, none, some .nonNumeric, none⟩ = .error e) :=
  ⟨⟨(validator_defaults_only_when_absent (fun _ => none)
        ⟨none, none, none, none, none, none⟩ 0).1 rfl
        ⟨pymin 100.0 (pymax 0.0 50.0), none, "", [], pymin 1.0 (pymax 0.0 0.5), ""⟩ rfl,
     (validator_defaults_only_when_absent (fun _ => none)
        ⟨none, none, none, none, none, none⟩ 0).2.1 rfl
        ⟨pymin 100.0 (pymax 0.0 50.0), none, "", [], pymin 1.0 (pymax 0.0 0.5), ""⟩ rfl⟩,
   (validator_defaults_only_when_absent (fun _ => none)
      ⟨some (.num 120.0), none, none, none, some (.num 2.0), none⟩ 120.0).2.2.1 rfl
      ⟨pymin 100.0 (pymax 0.0 120.0), none, "", [], pymin 1.0 (pymax 0.0 2.0), ""⟩ rfl,
   (validator_defaults_only_when_absent (fun _ => none)
      ⟨some (.num 120.0), none, none, none, some (.num 2.0), none⟩ 2.0).2.2.2.1 rfl
      ⟨pymin 100.0 (pymax 0.0 120.0), none, "", [], pymin 1.0 (pymax 0.0 2.0), ""⟩ rfl,
   (validator_defaults_only_when_absent (fun _ => none)
      ⟨some .nonNumeric, none, none, none, none, none⟩ 0).2.2.2.2.1 rfl,
   (validator_defaults_only_when_absent (fun _ => none)
      ⟨none, none, none, none, some .nonNumeric, none⟩ 0).2.2.2.2.2 rfl⟩

/-- The context bonus is 10 per qualifying entry. -/
theorem contextBonus_eq (entries : List ContextEntry) :
    contextBonus entries = 10 * ((entries.filter contextQualifies).length : ℚ) := by
  induction entries with
  | nil => simp [contextBonus]
  | cons e t ih =>
      cases hq : contextQualifies e <;>
        simp [contextBonus, List.filter_cons, hq, List.map_cons, List.sum_cons] at ih ⊢ <;>
        rw [ih] <;> push_cast <;> ring

/-- Keyword adjustment over a nonnegative table grows when keyword
occurrences are preserved. -/
theorem keywordAdjust_mono_of_nonneg (table : List (String × ℚ))
    (hpos : ∀ kb ∈ table, 0 ≤ kb.2) (t₁ t₂ : String)
    (h : ∀ kb ∈ table, containsSub t₁ kb.1 = true → containsSub t₂ kb.1 = true) :
    keywordAdjust table t₁ ≤ keywordAdjust table t₂ := by
  unfold keywordAdjust
  apply List.sum_le_sum
  intro kb hkb
  by_cases h1 : containsSub t₁ kb.1 = true
  · simp [h1, h kb hkb h1]
  · by_cases h2 : containsSub t₂ kb.1 = true <;>
      simp [h1, h2, hpos kb hkb]

/-- Keyword adjustment over a nonpositive table shrinks when keyword
occurrences are preserved in the other direction. -/
theorem keywordAdjust_anti_of_nonpos (table : List (String × ℚ))
    (hneg : ∀ kb ∈ table, kb.2 ≤ 0) (t₁ t₂ : String)
    (h : ∀ kb ∈ table, containsSub t₂ kb.1 = true → containsSub t₁ kb.1 = true) :
    keywordAdjust table t₁ ≤ keywordAdjust table t₂ := by
  unfold keywordAdjust
  apply List.sum_le_sum
  intro kb hkb
  by_cases h2 : containsSub t₂ kb.1 = true
  · simp [h2, h kb hkb h2]
  · by_cases h1 : containsSub t₁ kb.1 = true <;> simp [h1, h2, hneg kb hkb]

/-- C6: whenever the blob contains "this week" and no alternative of an
earlier time pattern, the deadline suggestion is now + 7 days, whatever the
priority score and workload would otherwise dictate — the first matching
pattern in the fixed order wins. -/
theorem this_week_pattern_precedence (title description : String)
    (priority_score : ℚ) (current_load : Option Workload) (now : ℚ)
    (hw : containsSub (strToLower (title ++ " " ++ description)) "this week" = true)
    (h1 : containsSub (strToLower (title ++ " " ++ description)) "today" = false)
    (h2 : containsSub (strToLower (title ++ " " ++ description)) "asap" = false)
    (h3 : containsSub (strToLower (title ++ " " ++ description)) "immediately" = false)
    (h4 : containsSub (strToLower (title ++ " " ++ description)) "tomorrow" = false)
    (h5 : containsSub (strToLower (title ++ " " ++ description)) "by tomorrow" = false) :
    suggest_deadline title description priority_score current_load now =
      some (now + 7) := by
  simp [suggest_deadline, findTimePattern, time_patterns, hw, h1, h2, h3, h4, h5]

/-- Witness for C6: a "this week" task at priority score 95 (which alone
would yield the 1-day rule) still gets now + 7 days. -/
theorem this_week_pattern_precedence_witness :
    suggest_deadline "finish the report this week" "" 95 none 0 = some (0 + 7) :=
  this_week_pattern_precedence "finish the report this week" "" 95 none 0
    (by decide) (by decide) (by decide) (by decide) (by decide) (by decide)

/-- C7: the rule-based score equals the clamp of base plus keyword
adjustments plus 10 per qualifying context entry (message-app, i.e. the
source's whatsapp, or email, with an urgency word in its content) — so n
qualifying entries add 10·n before the final clamping; and the concrete
one-email scenario at priority "medium" scores exactly 60. -/
theorem context_bonus_ten_per_qualifying_entry :
    (∀ (title description current_priority : String)
      (entries : List ContextEntry),
      calculate_priority_score title description current_priority entries =
        pymin 100 (pymax 0 (priorityBase current_priority +
          (keywordAdjust urgency_keywords (title ++ " " ++ description) +
            keywordAdjust calming_keywords (title ++ " " ++ description) +
            10 * ((entries.filter contextQualifies).length : ℚ))))) ∧
    calculate_priority_score "water plants" "" "medium"
      [⟨"email", "urgent reply needed"⟩] = 60 := by
  constructor
  · intro t d p entries
    simp only [calculate_priority_score, contextBonus_eq]
  · simp +decide [calculate_priority_score, keywordAdjust, urgency_keywords,
      calming_keywords, contextBonus, priorityBase, pymin, pymax, contextQualifies]
    norm_num

/-- C8 counterexample: with three context entries whose only qualifying
(email) entry sits at index 2, the enhancement returns the description
unchanged — no block with that entry is appended, although the description
is non-empty and a qualifying entry exists. -/
theorem enhance_skips_late_context_counterexample :
    enhance_description ⟨"t", "desc", "medium"⟩
        [⟨"note", "n1"⟩, ⟨"note", "n2"⟩, ⟨"email", "urgent"⟩] = "desc" ∧
    renderContextLine ⟨"email", "urgent"⟩ = "Context from email: urgent..." ∧
    ("desc" : String) ≠
      "desc" ++ "\n\nAdditional context:\n" ++ "Context from email: urgent..." := by
  refine ⟨by decide, by decide, by decide⟩

/-- C8 amended: the enhancement looks only at the first 2 context entries
(`context_entries[:2]`), then filters those by source type: empty
description returns empty; if no qualifying entry is among the first 2
(even when later entries qualify) the description is returned unchanged;
otherwise the block of the qualifying entries among the first 2 is
appended, each line rendered from the first 100 characters of content, in
input order. -/
theorem enhance_description_uses_first_two (task : TaskInput)
    (entries : List ContextEntry) :
    (task.description = "" → enhance_description task entries = "") ∧
    enhance_description task entries = enhance_description task (entries.take 2) ∧
    (task.description ≠ "" → (entries.take 2).filter enhanceQualifies = [] →
      enhance_description task entries = task.description) ∧
    (task.description ≠ "" → (entries.take 2).filter enhanceQualifies ≠ [] →
      enhance_description task entries =
        task.description ++ "\n\nAdditional context:\n" ++
          String.intercalate "\n"
            (((entries.take 2).filter enhanceQualifies).map renderContextLine)) := by
  refine ⟨?_, ?_, ?_, ?_⟩
  · intro h
    simp [enhance_description, h]
  · simp [enhance_description, List.take_take]
  · intro h hf
    simp [enhance_description, h, hf]
  · intro h hf
    simp [enhance_description, h, hf]

/-- Witness for C8's amended claim: one qualifying email entry among the
first two produces the appended context block. -/
theorem enhance_description_uses_first_two_witness :
    enhance_description ⟨"t", "desc", "medium"⟩ [⟨"email", "hi"⟩] =
      "desc" ++ "\n\nAdditional context:\n" ++
        String.intercalate "\n"
          ((([⟨"email", "hi"⟩] : List ContextEntry).take 2).filter
              enhanceQualifies |>.map renderContextLine) :=
  (enhance_description_uses_first_two ⟨"t", "desc", "medium"⟩
    [⟨"email", "hi"⟩]).2.2.2 (by decide) (by decide)

/-- C9: holding priority, context and the other keyword family fixed, the
rule-based score is non-decreasing when more urgency keywords occur in the
blob (occurrences preserved from blob 1 to blob 2) and non-increasing when
more calming keywords occur (occurrences preserved from blob 2 to
blob 1). -/
theorem priority_score_monotone_in_keywords
    (title₁ description₁ title₂ description₂ current_priority : String)
    (context_entries : List ContextEntry)
    (hu : ∀ kb ∈ urgency_keywords,
      containsSub (title₁ ++ " " ++ description₁) kb.1 = true →
      containsSub (title₂ ++ " " ++ description₂) kb.1 = true)
    (hc : ∀ kb ∈ calming_keywords,
      containsSub (title₂ ++ " " ++ description₂) kb.1 = true →
      containsSub (title₁ ++ " " ++ description₁) kb.1 = true) :
    calculate_priority_score title₁ description₁ current_priority context_entries ≤
      calculate_priority_score title₂ description₂ current_priority context_entries := by
  have h1 := keywordAdjust_mono_of_nonneg urgency_keywords
    (by intro kb hkb; fin_cases hkb <;> norm_num) _ _ hu
  have h2 := keywordAdjust_anti_of_nonpos calming_keywords
    (by intro kb hkb; fin_cases hkb <;> norm_num) _ _ hc
  simp only [calculate_priority_score]
  apply pyclamp_mono
  linarith

/-- Witness for C9: an empty blob scores no more than a blob containing
"urgent". -/
theorem priority_score_monotone_in_keywords_witness :
    calculate_priority_score "" "" "medium" [] ≤
      calculate_priority_score "urgent" "" "medium" [] :=
  priority_score_monotone_in_keywords "" "" "urgent" "" "medium" []
    (by decide) (by decide)

end SmartTodo
